import Mathlib

/-!
Verification of the rabbit-force repository: configuration schemas
(`rabbit_force/config_schema.py`) and object factories
(`rabbit_force/factories.py`), together with the forwarding-completion
handler of the application orchestrator.

Conventions of the embedding:
* a marshmallow input mapping is modelled as a record of `Option` fields,
  one per declared schema field (`none` = key absent from the mapping);
* schema-level validators raising `marshmallow.ValidationError` become
  `Bool`-valued checks (`true` = no error raised);
* Python `float` API versions become `ℚ` (every version literal used by
  the schema, such as `28.0`, `29.0`, `42.0`, is exactly representable);
* dictionaries whose exact keys matter (the unknown-field check) are
  modelled by their key lists.
-/

namespace RabbitForce

/-! ### StrictSchema.check_unknown_fields (config_schema.py lines 9-25) -/

/-- Unknown keys of an input mapping: the set difference
`set(original_data) - set(self.fields)` computed by
`StrictSchema.check_unknown_fields`, as a deduplicated list. -/
def unknownFields (schemaFields originalData : List String) : List String :=
  (originalData.filter (fun k => !(schemaFields.contains k))).dedup

/-- Embedding of `StrictSchema.check_unknown_fields`: returns
`some payload` when a `ValidationError` carrying `list(unknown_fields)`
is raised, `none` when no error is raised. -/
def check_unknown_fields (schemaFields originalData : List String) :
    Option (List String) :=
  if (unknownFields schemaFields originalData).isEmpty then none
  else some (unknownFields schemaFields originalData)

/-! Declared-field key lists of the concrete schemas, for instantiation. -/

/-- Declared fields of `RouteSchema`. -/
def routeSchemaFields : List String :=
  ["broker_name", "exchange_name", "routing_key", "properties"]

/-- Declared fields of `PushTopicSchema`. -/
def pushTopicSchemaFields : List String :=
  ["Id", "Name", "ApiVersion", "IsActive", "NotifyForFields", "Description",
   "NotifyForOperationCreate", "NotifyForOperationUpdate",
   "NotifyForOperationDelete", "NotifyForOperationUndelete",
   "NotifyForOperations", "Query"]

end RabbitForce

namespace RabbitForce

theorem mem_unknownFields (fs od : List String) (k : String) :
    k ∈ unknownFields fs od ↔ k ∈ od ∧ ¬ k ∈ fs := by
  simp [unknownFields, List.mem_dedup, List.mem_filter]

/-! ### PushTopicSchema (config_schema.py lines 28-108) -/

/-- Deserialized data mapping seen by the validators of `PushTopicSchema`:
one `Option` per declared field, `none` when the key is absent (a key whose
value fails field validation is likewise absent from `data`, as the source
comment on `check_api_version` notes). -/
structure PushTopicData where
  Id : Option String
  Name : Option String
  ApiVersion : Option ℚ
  IsActive : Option Bool
  NotifyForFields : Option String
  Description : Option String
  NotifyForOperationCreate : Option Bool
  NotifyForOperationUpdate : Option Bool
  NotifyForOperationDelete : Option Bool
  NotifyForOperationUndelete : Option Bool
  NotifyForOperations : Option String
  Query : Option String

/-- Key-presence list of the data mapping, in field-declaration order. -/
def PushTopicData.presence (d : PushTopicData) : List Bool :=
  [d.Id.isSome, d.Name.isSome, d.ApiVersion.isSome, d.IsActive.isSome,
   d.NotifyForFields.isSome, d.Description.isSome,
   d.NotifyForOperationCreate.isSome, d.NotifyForOperationUpdate.isSome,
   d.NotifyForOperationDelete.isSome, d.NotifyForOperationUndelete.isSome,
   d.NotifyForOperations.isSome, d.Query.isSome]

/-- Number of keys present in the data mapping, the `len(data)` used by
`check_required_fileds`. -/
def PushTopicData.size (d : PushTopicData) : Nat := d.presence.count true

/-- Embedding of `PushTopicSchema.check_required_fileds` (the misspelling
is the source's); `true` means the validator raises no error.
With `len(data) == 1`, `data.keys() & {"Id", "Name"}` is non-empty iff
`Id` or `Name` is present; with `len(data) > 1` the required-fields
equation holds iff `Name`, `ApiVersion` and `Query` are all present. -/
def check_required_fileds (d : PushTopicData) : Bool :=
  if d.size = 1 then d.Id.isSome || d.Name.isSome
  else if 1 < d.size then d.Name.isSome && d.ApiVersion.isSome && d.Query.isSome
  else false

/-- Embedding of `PushTopicSchema.check_api_version`; `true` means the
validator raises no error.  The two branches mirror the source's
`if` / `elif` on `data["ApiVersion"]`. -/
def check_api_version (d : PushTopicData) : Bool :=
  match d.ApiVersion with
  | none => true
  | some v =>
    if 29 ≤ v ∧ d.NotifyForOperations.isSome = true then false
    else if v ≤ 28 ∧ (d.NotifyForOperationCreate.isSome = true ∨
                      d.NotifyForOperationDelete.isSome = true ∨
                      d.NotifyForOperationUndelete.isSome = true ∨
                      d.NotifyForOperationUpdate.isSome = true) then false
    else true

/-- Validity of an optional field under a validator: an absent field
raises no field error. -/
def optValid {α : Type} (p : α → Bool) : Option α → Bool
  | none => true
  | some a => p a

/-- Per-field validators of `PushTopicSchema` (the marshmallow
`validate=` arguments: `Length`, `Range` and `OneOf`). -/
def pushTopicFieldsValid (d : PushTopicData) : Bool :=
  optValid (fun s => decide (1 ≤ s.length)) d.Id &&
  optValid (fun s => decide (1 ≤ s.length) && decide (s.length ≤ 25)) d.Name &&
  optValid (fun v : ℚ => decide (20 ≤ v) && decide (v ≤ 42)) d.ApiVersion &&
  optValid (fun s => ["All", "Referenced", "Select", "Where"].contains s)
    d.NotifyForFields &&
  optValid (fun s => decide (s.length ≤ 400)) d.Description &&
  optValid (fun s => ["All", "Create", "Extended", "Update"].contains s)
    d.NotifyForOperations &&
  optValid (fun s => decide (1 ≤ s.length) && decide (s.length ≤ 1300)) d.Query

/-- Complete validation of a PushTopic resource spec by
`PushTopicSchema().load`: every present field passes its field validator
and both schema-level validators raise no error. -/
def pushTopicLoadOk (d : PushTopicData) : Bool :=
  pushTopicFieldsValid d && check_required_fileds d && check_api_version d

/-- Presence of any non-identifier field (any declared field other than
the unique identifiers `Id` and `Name`). -/
def hasNonIdentifierField (d : PushTopicData) : Bool :=
  d.ApiVersion.isSome || d.IsActive.isSome || d.NotifyForFields.isSome ||
  d.Description.isSome || d.NotifyForOperationCreate.isSome ||
  d.NotifyForOperationUpdate.isSome || d.NotifyForOperationDelete.isSome ||
  d.NotifyForOperationUndelete.isSome || d.NotifyForOperations.isSome ||
  d.Query.isSome

/-! ### StreamingChannelSchema (config_schema.py lines 111-139) -/

/-- Deserialized data mapping seen by the validators of
`StreamingChannelSchema`. -/
structure StreamingChannelData where
  Id : Option String
  Name : Option String
  Description : Option String

/-- Number of keys present in a StreamingChannel data mapping. -/
def StreamingChannelData.size (d : StreamingChannelData) : Nat :=
  [d.Id.isSome, d.Name.isSome, d.Description.isSome].count true

/-- Embedding of `StreamingChannelSchema.check_required_fileds`: with a
single key it must be `Id` or `Name`; an empty mapping is an error; any
larger mapping passes. -/
def StreamingChannelData.check_required_fileds
    (d : StreamingChannelData) : Bool :=
  if d.size = 1 then d.Id.isSome || d.Name.isSome
  else if d.size = 0 then false
  else true

/-- Per-field validators of `StreamingChannelSchema`: `Id` has
`Length(min=1)`, `Name` has `Length(min=1, max=80)` and `Description` has
`Length(max=255)`. -/
def scFieldsValid (d : StreamingChannelData) : Bool :=
  optValid (fun s => decide (1 ≤ s.length)) d.Id &&
  optValid (fun s => decide (1 ≤ s.length) && decide (s.length ≤ 80)) d.Name &&
  optValid (fun s => decide (s.length ≤ 255)) d.Description

/-- Complete validation of a StreamingChannel resource spec by
`StreamingChannelSchema().load`. -/
def streamingChannelLoadOk (d : StreamingChannelData) : Bool :=
  scFieldsValid d && StreamingChannelData.check_required_fileds d

/-! ### RouteSchema (config_schema.py lines 244-251) -/

/-- Input mapping validated by `RouteSchema`.  The `properties` value is
doubly optional: the outer `Option` is key presence, the inner one is the
explicit `null` permitted by `allow_none=True`. -/
structure RouteData where
  broker_name : Option String
  exchange_name : Option String
  routing_key : Option String
  properties : Option (Option (List (String × String)))

/-- Validation of a route mapping by `RouteSchema`: `broker_name`,
`exchange_name` and `routing_key` are `required=True`; `broker_name` and
`routing_key` carry `Length(min=1)`; `properties` is an optional,
nullable string-to-string mapping with no further validator. -/
def routeLoadOk (r : RouteData) : Bool :=
  (match r.broker_name with
   | none => false
   | some s => decide (1 ≤ s.length)) &&
  r.exchange_name.isSome &&
  (match r.routing_key with
   | none => false
   | some s => decide (1 ≤ s.length))

/-! ### Concrete PushTopic specs used as test inputs -/

/-- Concrete PushTopic spec with the fractional API version 28.5: every
present field passes its validator, the required fields are present, and
`NotifyForOperations` is given. -/
def ptApi28half : PushTopicData :=
  ⟨none, some "t", some (28.5 : ℚ), none, none, none, none, none, none,
   none, some "All", some "SELECT Id FROM X"⟩

/-- Scenario-S6 PushTopic spec: full declarative form at API version 30.0
with `NotifyForOperations` given. -/
def ptApi30 : PushTopicData :=
  ⟨none, some "t", some (30 : ℚ), none, none, none, none, none, none,
   none, some "All", some "SELECT Id FROM X"⟩

/-! ### Routing data model and router factory (factories.py lines 170-221) -/

/-- Modelled from the spec: the `Route` class of `rabbit_force/routing.py`
is not under src/; per section 3 of the spec a route is the record
`{ broker_name, exchange_name, routing_key, properties? }`, built here
from the keyword arguments of `Route(**route_spec)`. -/
structure Route where
  broker_name : String
  exchange_name : String
  routing_key : String
  properties : Option (List (String × String))
deriving DecidableEq

/-- Modelled from the spec: `RoutingCondition` (routing.py, not under
src/) is a predicate compiled once from a textual expression and
immutable afterwards; it is represented by its expression text. -/
structure RoutingCondition where
  expression : String
deriving DecidableEq

/-- Modelled from the spec: `RoutingRule` (routing.py, not under src/) is
the pair `(condition, route)`. -/
structure RoutingRule where
  condition : RoutingCondition
  route : Route
deriving DecidableEq

/-- Modelled from the spec: `MessageRouter` (routing.py, not under src/)
holds an ordered list of rules and an optional default route, exactly the
two constructor arguments of `MessageRouter(default_route, rules)`. -/
structure MessageRouter where
  default_route : Option Route
  rules : List RoutingRule

/-- Validated route specification: the deserialized output of
`RouteSchema`, passed as keyword arguments to the route factory. -/
structure RouteSpec where
  broker_name : String
  exchange_name : String
  routing_key : String
  properties : Option (List (String × String))

/-- The default route factory of `create_rule` and `create_router`:
`Route(**route_spec)`. -/
def routeOfSpec (s : RouteSpec) : Route :=
  ⟨s.broker_name, s.exchange_name, s.routing_key, s.properties⟩

/-- Validated routing-rule specification: the deserialized output of
`RoutingRuleSchema`, with a `condition_spec` and a `route_spec`. -/
structure RuleSpec where
  condition_spec : String
  route_spec : RouteSpec

/-- Embedding of `create_rule` (factories.py lines 170-190) with its
default factories `RoutingCondition` and `Route`: the rule is built from
the condition compiled from `condition_spec` and the route built from
`route_spec`. -/
def create_rule (s : RuleSpec) : RoutingRule :=
  ⟨⟨s.condition_spec⟩, routeOfSpec s.route_spec⟩

/-- Embedding of `create_router` (factories.py lines 193-221) with its
default factories: the default route is `None` unless a default route
spec is given, and one rule is built per entry of `rule_specs`. -/
def create_router (default_route_spec : Option RouteSpec)
    (rule_specs : List RuleSpec) : MessageRouter :=
  let default_route : Option Route :=
    match default_route_spec with
    | none => none
    | some s => some (routeOfSpec s)
  ⟨default_route, rule_specs.map create_rule⟩

/-! ### Message source factory (factories.py lines 12-95) -/

/-- Streaming resource specification attached to an org (the deserialized
output of `StreamingResourceSchema`): a resource type name, the loaded
type-specific spec, and the optional durability flag. -/
inductive LoadedResourceSpec
  | pushTopic (d : PushTopicData)
  | streamingChannel (d : StreamingChannelData)

/-- Resource entry passed to `SalesforceOrg.add_resource`. -/
structure StreamingResourceSpec where
  resource_type : String
  resource_spec : LoadedResourceSpec
  durable : Option Bool

/-- Modelled from the spec: `SalesforceOrg` (rabbit_force/source, not
under src/) holds the connected-app credentials and the streaming
resources added to it with `add_resource`. -/
structure SalesforceOrg where
  consumer_key : String
  consumer_secret : String
  username : String
  password : String
  resources : List StreamingResourceSpec

/-- Embedding of `create_salesforce_org` (factories.py lines 12-43): the
org is constructed from the credentials and every resource spec of
`streaming_resource_specs` is added to it in order. -/
def create_salesforce_org
    (consumer_key consumer_secret username password : String)
    (streaming_resource_specs : List StreamingResourceSpec) :
    SalesforceOrg :=
  ⟨consumer_key, consumer_secret, username, password,
   streaming_resource_specs⟩

/-- Validated Salesforce org specification (the deserialized output of
`SalesforceOrgSchema`), the keyword arguments of the org factory. -/
structure OrgSpec where
  consumer_key : String
  consumer_secret : String
  username : String
  password : String
  streaming_resource_specs : List StreamingResourceSpec

/-- Org construction of `create_message_source`:
`await org_factory(**spec)` with the default factory
`create_salesforce_org`. -/
def orgOfSpec (s : OrgSpec) : SalesforceOrg :=
  create_salesforce_org s.consumer_key s.consumer_secret s.username
    s.password s.streaming_resource_specs

/-- Replay options of the aiosfstream client library, the possible
replay-fallback values. -/
inductive ReplayOption
  | NEW_EVENTS
  | ALL_EVENTS
deriving DecidableEq

/-- Validated replay storage specification (the deserialized output of
`ReplaySchema`): a redis `address` and an optional user key prefix.  The
source field is named `key_prefix`; it is called `prefix_key` here. -/
structure ReplaySpec where
  address : String
  prefix_key : Option String
deriving DecidableEq

/-- Modelled from the spec: `RedisReplayStorage`
(rabbit_force/source/message_source.py, not under src/) records its
constructor arguments: the redis address and the key prefix under which
markers are persisted (spec section 6: keys start at the prefix).  The
source keyword argument is `key_prefix`; it is called `prefix_key`
here. -/
structure RedisReplayStorage where
  address : String
  prefix_key : Option String
deriving DecidableEq

/-- Modelled from the spec: `SalesforceOrgMessageSource`
(rabbit_force/source/message_source.py, not under src/) records its
constructor arguments: the source name, the wrapped org, the replay
marker storage and the replay fallback. -/
structure SalesforceOrgMessageSource where
  name : String
  org : SalesforceOrg
  replay_marker_storage : Option RedisReplayStorage
  replay_fallback : Option ReplayOption

/-- Result of `create_message_source`: either the single org's message
source itself, or a `MultiMessageSource` grouping the per-org sources. -/
inductive MessageSource
  | single (source : SalesforceOrgMessageSource)
  | multi (sources : List SalesforceOrgMessageSource)

/-- Replay marker storage built by `create_message_source` (factories.py
lines 64-74): `None` when `replay_spec` is absent or empty (falsy),
otherwise the single `RedisReplayStorage(**replay_spec)`. -/
def replayStorageOf : Option ReplaySpec → Option RedisReplayStorage
  | none => none
  | some s => some ⟨s.address, s.prefix_key⟩

/-- Replay fallback chosen by `create_message_source` (factories.py lines
64-74): `None` when `replay_spec` is absent or empty (falsy), otherwise
`ReplayOption.ALL_EVENTS`. -/
def replayFallbackOf : Option ReplaySpec → Option ReplayOption
  | none => none
  | some _ => some ReplayOption.ALL_EVENTS

/-- Embedding of `create_message_source` (factories.py lines 46-95) with
the default org factory.  `org_specs` is the name-to-spec mapping as an
ordered association list; `replay_spec = none` models a `replay_spec`
that is Python-falsy (absent or an empty mapping).  Every per-org message
source receives the same `replay_marker_storage` and `replay_fallback`;
a single source is returned unwrapped, anything else is grouped in a
multi message source. -/
def create_message_source (org_specs : List (String × OrgSpec))
    (replay_spec : Option ReplaySpec) : MessageSource :=
  let message_sources := org_specs.map
    (fun p => SalesforceOrgMessageSource.mk p.1 (orgOfSpec p.2)
      (replayStorageOf replay_spec) (replayFallbackOf replay_spec))
  match message_sources with
  | [source] => MessageSource.single source
  | sources => MessageSource.multi sources

/-- Per-org message sources carried by a factory result. -/
def MessageSource.sources : MessageSource → List SalesforceOrgMessageSource
  | .single s => [s]
  | .multi l => l

/-- Whether the factory result is a `MultiMessageSource`. -/
def MessageSource.isMulti : MessageSource → Bool
  | .single _ => false
  | .multi _ => true

/-- Concrete org spec used to evaluate the factory at test inputs. -/
def orgSpecA : OrgSpec := ⟨"key", "secret", "user", "pass", []⟩

/-- Concrete replay spec with a user key prefix, mirroring the input of
the test `TestCreateReplayStorage.test_create_with_replay_spec`. -/
def replaySpecA : ReplaySpec := ⟨"redis://localhost", some "prefix"⟩

/-- Concrete route spec used to evaluate the router factory. -/
def routeSpecA : RouteSpec := ⟨"b1", "e1", "k.def", none⟩

/-! ### Forwarding-completion handler of the orchestrator -/

/-- In-flight bookkeeping entry: the named tuple
`SourceMessagePair(source_name, message)` of rabbit_force/app.py; the
message payload is opaque to the completion handler. -/
structure SourceMessagePair where
  source_name : String
  message : String
deriving DecidableEq

/-- Exception observed from a completed forwarding task. -/
inductive ForwardError
  | messageSinkError (message : String)
  | otherError (typeName : String) (message : String)
deriving DecidableEq

/-- Outcome of the completion handler: the in-flight map after removal,
whether an ERROR record was logged, and the exception re-raised if
any. -/
structure DoneOutcome where
  tasks : List (Nat × SourceMessagePair)
  errorLogged : Bool
  raised : Option ForwardError

/-- Modelled from the spec: `Application._forward_message_done`
(rabbit_force/app.py is not under src/; behavior fixed by spec section
4.7 steps 4-5 and the completion-hook paragraph).  The handler removes
the completed task from the in-flight set; when the task failed with
`MessageSinkError` it logs an ERROR and swallows the error iff
`ignore_sink_errors` is true and re-raises it otherwise; any other
exception is re-raised. -/
def forward_message_done (ignore_sink_errors : Bool)
    (tasks : List (Nat × SourceMessagePair)) (task : Nat)
    (result : Except ForwardError (Option Route)) : DoneOutcome :=
  let remaining := tasks.filter (fun p => p.1 != task)
  match result with
  | .ok _ => ⟨remaining, false, none⟩
  | .error (.messageSinkError m) =>
    if ignore_sink_errors then ⟨remaining, true, none⟩
    else ⟨remaining, false, some (.messageSinkError m)⟩
  | .error e => ⟨remaining, false, some e⟩

end RabbitForce

namespace RabbitForce

/-- Counting helper: when an identifier field and a non-identifier field
are both present, the data mapping has at least two keys. -/
theorem two_le_count_of_id_and_other :
    ∀ b1 b2 b3 b4 b5 b6 b7 b8 b9 b10 b11 b12 : Bool,
    (b1 || b2) = true →
    (b3 || b4 || b5 || b6 || b7 || b8 || b9 || b10 || b11 || b12) = true →
    2 ≤ [b1, b2, b3, b4, b5, b6, b7, b8, b9, b10, b11, b12].count true := by
  decide

/-- Helper: when every key of the input is declared, the unknown-field
list is empty. -/
theorem unknownFields_eq_nil_iff (fs od : List String) :
    unknownFields fs od = [] ↔ ∀ k ∈ od, k ∈ fs := by
  rw [List.eq_nil_iff_forall_not_mem]
  constructor
  · intro hall k hk
    by_contra hks
    exact hall k ((mem_unknownFields fs od k).mpr ⟨hk, hks⟩)
  · intro hall k hk
    obtain ⟨h1, h2⟩ := (mem_unknownFields fs od k).mp hk
    exact h2 (hall k h1)

/-- C1: for every schema derived from `StrictSchema` (represented by its
declared field list) and every input mapping (represented by its key
list), the unknown-field check raises no validation error exactly when
every input key is a declared field, and when it raises an error the
error payload names exactly the unknown keys. -/
theorem strictSchema_rejects_unknown_fields
    (schemaFields originalData : List String) :
    (check_unknown_fields schemaFields originalData = none ↔
      ∀ k ∈ originalData, k ∈ schemaFields) ∧
    (∀ payload,
      check_unknown_fields schemaFields originalData = some payload →
      ∀ k, k ∈ payload ↔ k ∈ originalData ∧ ¬ k ∈ schemaFields) := by
  constructor
  · rw [← unknownFields_eq_nil_iff schemaFields originalData]
    constructor
    · intro hn
      by_contra hne
      have h : ¬ (unknownFields schemaFields originalData).isEmpty = true := by
        simpa [List.isEmpty_iff] using hne
      rw [check_unknown_fields, if_neg h] at hn
      exact Option.some_ne_none _ hn
    · intro he
      rw [check_unknown_fields, if_pos (by simpa [List.isEmpty_iff] using he)]
  · intro payload hp k
    by_cases he : (unknownFields schemaFields originalData).isEmpty = true
    · rw [check_unknown_fields, if_pos he] at hp
      exact absurd hp (by simp)
    · rw [check_unknown_fields, if_neg he] at hp
      obtain rfl := Option.some.inj hp
      exact mem_unknownFields schemaFields originalData k

/-- Witness for C1: on `RouteSchema`, an input carrying the undeclared key
called bogus yields an error payload holding exactly that key. -/
theorem strictSchema_rejects_unknown_fields_witness :
    "bogus" ∈ ["bogus"] ↔
      "bogus" ∈ ["broker_name", "bogus"] ∧
      ¬ "bogus" ∈ routeSchemaFields :=
  (strictSchema_rejects_unknown_fields routeSchemaFields
    ["broker_name", "bogus"]).2 ["bogus"] (by decide) "bogus"

/-- C3: a PushTopic spec with no fields fails the required-fields check;
with exactly one field it passes only when that field is `Id` or `Name`;
and a spec containing any non-identifier field passes only when `Name`,
`ApiVersion` and `Query` are all present. -/
theorem pushTopic_required_fields (d : PushTopicData) :
    (d.size = 0 → check_required_fileds d = false) ∧
    (d.size = 1 → check_required_fileds d = true →
      d.Id.isSome = true ∨ d.Name.isSome = true) ∧
    (hasNonIdentifierField d = true → check_required_fileds d = true →
      d.Name.isSome = true ∧ d.ApiVersion.isSome = true ∧
      d.Query.isSome = true) := by
  refine ⟨?_, ?_, ?_⟩
  · intro h
    simp [check_required_fileds, h]
  · intro h hc
    rw [check_required_fileds, if_pos h] at hc
    simpa using hc
  · intro hn hc
    rw [check_required_fileds] at hc
    by_cases h1 : d.size = 1
    · rw [if_pos h1] at hc
      exfalso
      have h2 : 2 ≤ d.size :=
        two_le_count_of_id_and_other
          d.Id.isSome d.Name.isSome d.ApiVersion.isSome d.IsActive.isSome
          d.NotifyForFields.isSome d.Description.isSome
          d.NotifyForOperationCreate.isSome d.NotifyForOperationUpdate.isSome
          d.NotifyForOperationDelete.isSome d.NotifyForOperationUndelete.isSome
          d.NotifyForOperations.isSome d.Query.isSome hc hn
      omega
    · rw [if_neg h1] at hc
      by_cases h2 : 1 < d.size
      · rw [if_pos h2] at hc
        simp only [Bool.and_eq_true] at hc
        exact ⟨hc.1.1, hc.1.2, hc.2⟩
      · rw [if_neg h2] at hc
        exact absurd hc (by simp)

/-- Helper: the field validators of `PushTopicSchema` accept
`ptApi28half`. -/
theorem ptApi28half_fieldsValid : pushTopicFieldsValid ptApi28half = true := by
  have h20 : decide ((20 : ℚ) ≤ 28.5) = true := by norm_num
  have h42 : decide ((28.5 : ℚ) ≤ 42) = true := by norm_num
  simp only [pushTopicFieldsValid, ptApi28half, optValid, h20, h42]
  decide

/-- Helper: `check_api_version` raises no error on `ptApi28half`, because
28.5 satisfies neither `ApiVersion >= 29.0` nor `ApiVersion <= 28.0`. -/
theorem ptApi28half_apiCheck : check_api_version ptApi28half = true := by
  simp only [check_api_version, ptApi28half]
  norm_num

/-- C2 (counterexample): `PushTopicSchema` fully accepts a spec that has
the valid ApiVersion 28.5 together with `NotifyForOperations`, although
28.5 is not at most 28.0; acceptance of `NotifyForOperations` therefore
does not imply `ApiVersion ≤ 28.0` as claimed. -/
theorem pushTopic_api_version_claim_fails :
    pushTopicLoadOk ptApi28half = true ∧
    ptApi28half.NotifyForOperations.isSome = true ∧
    ptApi28half.ApiVersion = some (28.5 : ℚ) ∧
    ¬ ((28.5 : ℚ) ≤ 28) := by
  refine ⟨?_, rfl, rfl, by norm_num⟩
  rw [pushTopicLoadOk, ptApi28half_fieldsValid, ptApi28half_apiCheck]
  decide

/-- C2 (amended): for every PushTopic spec whose ApiVersion is present
and valid, full validation accepts `NotifyForOperations` only when
`ApiVersion < 29.0` and accepts any `NotifyForOperation{Create, Update,
Delete, Undelete}` only when `ApiVersion > 28.0`; in particular a spec
with ApiVersion 30.0 and `NotifyForOperations` present is rejected. -/
theorem pushTopic_api_version_rules (d : PushTopicData) (v : ℚ)
    (hv : d.ApiVersion = some v) (hval : 20 ≤ v ∧ v ≤ 42) :
    (pushTopicLoadOk d = true →
      (d.NotifyForOperations.isSome = true → v < 29) ∧
      ((d.NotifyForOperationCreate.isSome = true ∨
        d.NotifyForOperationUpdate.isSome = true ∨
        d.NotifyForOperationDelete.isSome = true ∨
        d.NotifyForOperationUndelete.isSome = true) → 28 < v)) ∧
    (v = 30 → d.NotifyForOperations.isSome = true →
      pushTopicLoadOk d = false) := by
  constructor
  · intro hok
    have hA : check_api_version d = true := by
      rw [pushTopicLoadOk, Bool.and_eq_true, Bool.and_eq_true] at hok
      exact hok.2
    simp only [check_api_version, hv] at hA
    by_cases h1 : 29 ≤ v ∧ d.NotifyForOperations.isSome = true
    · rw [if_pos h1] at hA
      exact absurd hA (by simp)
    · rw [if_neg h1] at hA
      by_cases h2 : v ≤ 28 ∧ (d.NotifyForOperationCreate.isSome = true ∨
          d.NotifyForOperationDelete.isSome = true ∨
          d.NotifyForOperationUndelete.isSome = true ∨
          d.NotifyForOperationUpdate.isSome = true)
      · rw [if_pos h2] at hA
        exact absurd hA (by simp)
      · constructor
        · intro ho
          by_contra hlt
          exact h1 ⟨le_of_not_lt hlt, ho⟩
        · intro ho
          by_contra hle
          refine h2 ⟨le_of_not_lt hle, ?_⟩
          tauto
  · intro h30 ho
    have hA : check_api_version d = false := by
      simp only [check_api_version, hv, h30]
      rw [if_pos ⟨by norm_num, ho⟩]
    rw [pushTopicLoadOk, hA]
    simp

/-- Witness for C3: the full spec `ptApi30` holds a non-identifier field
and passes the required-fields check, so `Name`, `ApiVersion` and `Query`
are all present in it. -/
theorem pushTopic_required_fields_witness :
    ptApi30.Name.isSome = true ∧ ptApi30.ApiVersion.isSome = true ∧
      ptApi30.Query.isSome = true :=
  (pushTopic_required_fields ptApi30).2.2 (by decide) (by decide)

/-- Witness for the amended C2: the scenario-S6 spec (ApiVersion 30.0
with `NotifyForOperations`) is rejected by `PushTopicSchema`. -/
theorem pushTopic_api_version_rules_witness :
    pushTopicLoadOk ptApi30 = false :=
  (pushTopic_api_version_rules ptApi30 30 rfl
    ⟨by norm_num, by norm_num⟩).2 rfl rfl

/-- C8: a StreamingChannel spec accepted by `StreamingChannelSchema` has a
`Name` of length 1 to 80 when present and a `Description` of length at
most 255 when present; an empty spec is rejected; and a spec with exactly
one field is accepted only when that field is `Id` or `Name`. -/
theorem streamingChannel_constraints (d : StreamingChannelData) :
    (streamingChannelLoadOk d = true →
      (∀ s, d.Name = some s → 1 ≤ s.length ∧ s.length ≤ 80) ∧
      (∀ s, d.Description = some s → s.length ≤ 255)) ∧
    (d.size = 0 → streamingChannelLoadOk d = false) ∧
    (d.size = 1 → streamingChannelLoadOk d = true →
      d.Id.isSome = true ∨ d.Name.isSome = true) := by
  refine ⟨?_, ?_, ?_⟩
  · intro hok
    rw [streamingChannelLoadOk, Bool.and_eq_true] at hok
    obtain ⟨hf, _⟩ := hok
    rw [scFieldsValid, Bool.and_eq_true, Bool.and_eq_true] at hf
    obtain ⟨⟨_, hname⟩, hdesc⟩ := hf
    constructor
    · intro s hs
      rw [hs] at hname
      simpa [optValid] using hname
    · intro s hs
      rw [hs] at hdesc
      simpa [optValid] using hdesc
  · intro h0
    have hrc : StreamingChannelData.check_required_fileds d = false := by
      rw [StreamingChannelData.check_required_fileds, if_neg (by omega),
        if_pos h0]
    simp [streamingChannelLoadOk, hrc]
  · intro h1 hok
    rw [streamingChannelLoadOk, Bool.and_eq_true] at hok
    obtain ⟨_, hrc⟩ := hok
    rw [StreamingChannelData.check_required_fileds, if_pos h1] at hrc
    simpa using hrc

/-- Witness for C8: the referencing form naming only the channel field
satisfies the validated length bound on `Name`. -/
theorem streamingChannel_constraints_witness :
    1 ≤ "chan".length ∧ "chan".length ≤ 80 :=
  ((streamingChannel_constraints ⟨none, some "chan", none⟩).1
    (by decide)).1 "chan" rfl

/-- C6: a route mapping accepted by `RouteSchema` has a non-empty
`broker_name`, a present `exchange_name` and a non-empty `routing_key`;
an empty `routing_key` or a missing `broker_name` is rejected; the
validation result never depends on `properties`, and a route carrying all
three required fields but no `properties` key is accepted. -/
theorem routeSchema_requirements (r : RouteData) :
    (routeLoadOk r = true →
      (∃ s, r.broker_name = some s ∧ 1 ≤ s.length) ∧
      r.exchange_name.isSome = true ∧
      (∃ s, r.routing_key = some s ∧ 1 ≤ s.length)) ∧
    (r.routing_key = some "" → routeLoadOk r = false) ∧
    (r.broker_name = none → routeLoadOk r = false) ∧
    (∀ p, routeLoadOk ⟨r.broker_name, r.exchange_name, r.routing_key, p⟩ =
      routeLoadOk r) ∧
    (∀ b e k, 1 ≤ b.length → 1 ≤ k.length →
      routeLoadOk ⟨some b, some e, some k, none⟩ = true) := by
  refine ⟨?_, ?_, ?_, fun p => rfl, ?_⟩
  · intro hok
    rw [routeLoadOk, Bool.and_eq_true, Bool.and_eq_true] at hok
    obtain ⟨⟨hb, he⟩, hk⟩ := hok
    refine ⟨?_, he, ?_⟩
    · match hbn : r.broker_name with
      | none => rw [hbn] at hb; exact absurd hb (by simp)
      | some s =>
        rw [hbn] at hb
        exact ⟨s, rfl, by simpa using hb⟩
    · match hkn : r.routing_key with
      | none => rw [hkn] at hk; exact absurd hk (by simp)
      | some s =>
        rw [hkn] at hk
        exact ⟨s, rfl, by simpa using hk⟩
  · intro hk
    rw [routeLoadOk, hk]
    simp
  · intro hb
    rw [routeLoadOk, hb]
    simp
  · intro b e k hb hk
    rw [routeLoadOk]
    simp only [Bool.and_eq_true, Option.isSome_some, decide_eq_true_eq]
    exact ⟨⟨hb, trivial⟩, hk⟩

/-- Witness for C6: the route mapping holding only the three required
fields, with no `properties` key, is accepted. -/
theorem routeSchema_requirements_witness :
    routeLoadOk ⟨some "b1", some "e1", some "k.a", none⟩ = true :=
  (routeSchema_requirements
    ⟨some "b1", some "e1", some "k.a", none⟩).2.2.2.2
    "b1" "e1" "k.a" (by decide) (by decide)

/-- C7: the router built by `create_router` has no default route exactly
when `default_route_spec` is null and otherwise carries the route built
from it, and its rule list has one rule per entry of `rule_specs`, in
declaration order. -/
theorem create_router_shape (ds : Option RouteSpec) (rs : List RuleSpec) :
    ((create_router ds rs).default_route = none ↔ ds = none) ∧
    (∀ s, ds = some s →
      (create_router ds rs).default_route = some (routeOfSpec s)) ∧
    (create_router ds rs).rules.length = rs.length ∧
    (∀ i : Nat,
      (create_router ds rs).rules[i]? = (rs[i]?).map create_rule) := by
  refine ⟨?_, ?_, ?_, ?_⟩
  · cases ds <;> simp [create_router]
  · intro s hs
    subst hs
    rfl
  · simp [create_router]
  · intro i
    simp [create_router]

/-- Witness for C7: building a router from a concrete default route spec
yields that route as the default. -/
theorem create_router_shape_witness :
    (create_router (some routeSpecA) []).default_route =
      some (routeOfSpec routeSpecA) :=
  (create_router_shape (some routeSpecA) []).2.1 routeSpecA rfl

/-- Helper: the per-org message sources produced by
`create_message_source`, one per entry of `org_specs`, each carrying the
shared replay storage and fallback. -/
theorem create_message_source_sources (org_specs : List (String × OrgSpec))
    (replay_spec : Option ReplaySpec) :
    (create_message_source org_specs replay_spec).sources = org_specs.map
      (fun p => SalesforceOrgMessageSource.mk p.1 (orgOfSpec p.2)
        (replayStorageOf replay_spec) (replayFallbackOf replay_spec)) := by
  rcases org_specs with _ | ⟨a, _ | ⟨b, t⟩⟩ <;> rfl

/-- C10: when `replay_spec` is falsy no replay storage is created and the
fallback handed to every message source is null; when it is given, every
message source receives the same single `RedisReplayStorage` built from
it and the fallback `ReplayOption.ALL_EVENTS`. -/
theorem create_message_source_replay (org_specs : List (String × OrgSpec))
    (replay_spec : Option ReplaySpec) :
    (replay_spec = none →
      ∀ src ∈ (create_message_source org_specs replay_spec).sources,
        src.replay_marker_storage = none ∧ src.replay_fallback = none) ∧
    (∀ s, replay_spec = some s →
      ∀ src ∈ (create_message_source org_specs replay_spec).sources,
        src.replay_marker_storage = some ⟨s.address, s.prefix_key⟩ ∧
        src.replay_fallback = some ReplayOption.ALL_EVENTS) := by
  constructor
  · rintro rfl src hsrc
    rw [create_message_source_sources] at hsrc
    obtain ⟨p, _, rfl⟩ := List.mem_map.mp hsrc
    exact ⟨rfl, rfl⟩
  · rintro s rfl src hsrc
    rw [create_message_source_sources] at hsrc
    obtain ⟨p, _, rfl⟩ := List.mem_map.mp hsrc
    exact ⟨rfl, rfl⟩

/-- Witness for C10: with a replay spec given, the single source created
for a one-org mapping carries the storage built from the spec and the
ALL_EVENTS fallback. -/
theorem create_message_source_replay_witness :
    (SalesforceOrgMessageSource.mk "org_name1" (orgOfSpec orgSpecA)
        (replayStorageOf (some replaySpecA))
        (replayFallbackOf (some replaySpecA))).replay_marker_storage =
      some ⟨"redis://localhost", some "prefix"⟩ ∧
    (SalesforceOrgMessageSource.mk "org_name1" (orgOfSpec orgSpecA)
        (replayStorageOf (some replaySpecA))
        (replayFallbackOf (some replaySpecA))).replay_fallback =
      some ReplayOption.ALL_EVENTS :=
  (create_message_source_replay [("org_name1", orgSpecA)]
    (some replaySpecA)).2 replaySpecA rfl _
    (by simp [create_message_source_sources])

/-- C9 (counterexample): on an empty org mapping the factory also returns
a `MultiMessageSource`, so returning a multi source does not imply that
two or more orgs were given. -/
theorem create_message_source_multi_on_empty :
    (create_message_source [] none).isMulti = true ∧
    ¬ 2 ≤ ([] : List (String × OrgSpec)).length :=
  ⟨rfl, by decide⟩

/-- C9 (amended): for a one-entry org mapping the factory returns that
org's `SalesforceOrgMessageSource` unwrapped, and on any non-empty org
mapping it returns a `MultiMessageSource` exactly when two or more
entries are given (the empty mapping also yields a multi source). -/
theorem create_message_source_wrapping (org_specs : List (String × OrgSpec))
    (replay_spec : Option ReplaySpec) :
    (∀ nm spec, org_specs = [(nm, spec)] →
      create_message_source org_specs replay_spec =
        MessageSource.single ⟨nm, orgOfSpec spec,
          replayStorageOf replay_spec, replayFallbackOf replay_spec⟩) ∧
    (org_specs ≠ [] →
      ((create_message_source org_specs replay_spec).isMulti = true ↔
        2 ≤ org_specs.length)) := by
  constructor
  · rintro nm spec rfl
    rfl
  · intro hne
    rcases org_specs with _ | ⟨a, _ | ⟨b, t⟩⟩
    · exact absurd rfl hne
    · have h1 : (create_message_source [a] replay_spec).isMulti = false := rfl
      rw [h1]
      simp
    · have h2 :
          (create_message_source (a :: b :: t) replay_spec).isMulti = true :=
        rfl
      rw [h2]
      simp only [List.length_cons, true_iff]
      omega

/-- Witness for the amended C9: a one-org mapping yields that org's
message source directly, not a multi source. -/
theorem create_message_source_wrapping_witness :
    create_message_source [("org_name1", orgSpecA)] none =
      MessageSource.single
        ⟨"org_name1", orgOfSpec orgSpecA, none, none⟩ :=
  (create_message_source_wrapping [("org_name1", orgSpecA)] none).1
    "org_name1" orgSpecA rfl

/-- C4 (evaluation at the failing input): `create_message_source` hands
the user key prefix to the replay storage unchanged, so the storage for
the source named org_name1 is keyed by the bare prefix and not by the
source-scoped composite required by the spec and by
`TestCreateReplayStorage`. -/
theorem create_message_source_prefix_not_source_scoped :
    ((create_message_source [("org_name1", orgSpecA)]
        (some replaySpecA)).sources.map
      (fun src => src.replay_marker_storage)) =
      [some ⟨"redis://localhost", some "prefix"⟩] ∧
    ¬ (("prefix" : String) = "prefix" ++ ":" ++ "org_name1") :=
  ⟨rfl, by decide⟩

/-- C5: a forwarding task finished with `MessageSinkError` has its entry
removed, an ERROR logged and nothing re-raised when `ignore_sink_errors`
is true; the same `MessageSinkError` is re-raised when the flag is false;
and an exception of any other type is always re-raised. -/
theorem forward_message_done_sink_error
    (tasks : List (Nat × SourceMessagePair)) (t : Nat) (m : String) :
    ((forward_message_done true tasks t
        (.error (.messageSinkError m))).errorLogged = true ∧
     (∀ p ∈ (forward_message_done true tasks t
        (.error (.messageSinkError m))).tasks, ¬ p.1 = t) ∧
     (forward_message_done true tasks t
        (.error (.messageSinkError m))).raised = none) ∧
    ((forward_message_done false tasks t
        (.error (.messageSinkError m))).raised =
      some (.messageSinkError m)) ∧
    (∀ ign tn msg,
      (forward_message_done ign tasks t
        (.error (.otherError tn msg))).raised =
      some (.otherError tn msg)) := by
  refine ⟨⟨rfl, ?_, rfl⟩, rfl, fun ign tn msg => rfl⟩
  intro p hp
  have hmem : p ∈ tasks.filter (fun q => q.1 != t) := hp
  have := (List.mem_filter.mp hmem).2
  simpa using this

/-- Witness for C5: with tasks 1 and 2 in flight and task 1 finishing
with an ignored sink error, the surviving entry is not task 1. -/
theorem forward_message_done_sink_error_witness :
    ¬ (2 : Nat) = 1 :=
  (forward_message_done_sink_error
    [(1, ⟨"s1", "m1"⟩), (2, ⟨"s2", "m2"⟩)] 1 "boom").1.2.1
    (2, ⟨"s2", "m2"⟩) (by decide)
